import Mathlib

/-!
Verification of `media/MediaExtractorPluginHelper.h` (Android media extractor
plugin helper): the `wrap` adapter that turns a `MediaExtractorPluginHelper`
into a `CMediaExtractor` contract of function pointers, the `DataSourceHelper`
bounds-checked big-endian field readers, and the compile-time UUID codec
`constUUID`.

Modelling conventions:
- machine integers are `Nat` (unsigned) and `Int` (signed `ssize_t`/`off64_t`);
- a `readAt` call is modelled as a pure function from `(offset, size)` to the
  returned `ssize_t` and the contents of the caller's buffer after the call
  (a list of the requested length; positions the source did not write hold
  arbitrary values, which the quantification over sources covers);
- each reader returns, besides the C function's boolean result and the value
  stored through the output pointer, the list of `readAt` requests it issued,
  so that "performs no read" is expressible;
- the host is little-endian (the only byte order Android supports), so
  `ntohl` is the 32-bit byte swap.
-/

/-- Modelled from the spec: the `CDataSource` struct declared in
`media/MediaExtractorPluginApi.h` (not under `src/`): an opaque handle plus
function pointers `readAt`, `getSize`, `getUri`, `flags`.  The handle is
absorbed into the function fields.  `readAt` yields the returned `ssize_t`
and the buffer contents after the call. -/
structure CDataSource where
  readAt : Int → Nat → Int × List Nat
  getSize : Unit → Int × Int
  getUri : Nat → Bool × String
  flags : Unit → Nat

/-- Result of one convenience reader of `DataSourceHelper`: the returned
boolean, the value left in the output parameter `*x`, and the trace of
`readAt` requests (offset, size) the call issued. -/
structure RdResult where
  ok : Bool
  val : Nat
  reads : List (Int × Nat)
deriving Repr, DecidableEq

/-- `DataSourceHelper` wraps a `CDataSource` (member `mSource`). -/
structure DataSourceHelper where
  mSource : CDataSource

/-- `DataSourceHelper::readAt`: direct passthrough to the source. -/
def DataSourceHelper.readAt (h : DataSourceHelper) (offset : Int) (size : Nat) :
    Int × List Nat :=
  h.mSource.readAt offset size

/-- `ntohl` on a little-endian host: the 32-bit byte swap, written on the
byte decomposition of the argument. -/
def ntohl (x : Nat) : Nat :=
  (x % 256) * 16777216 + (x / 256 % 256) * 65536 + (x / 65536 % 256) * 256 +
    x / 16777216 % 256

/-- Value of a byte buffer when loaded as an integer on a little-endian host
(first byte is least significant). -/
def leLoad (bytes : List Nat) : Nat :=
  bytes.foldr (fun b acc => b + 256 * acc) 0

/-- `DataSourceHelper::getUInt16`: `*x = 0`; read 2 bytes; on a full read
`*x = (byte[0] << 8) | byte[1]` and return true. -/
def DataSourceHelper.getUInt16 (h : DataSourceHelper) (offset : Int) : RdResult :=
  let r := h.readAt offset 2
  if r.1 = 2 then
    { ok := true, val := r.2.getD 0 0 <<< 8 ||| r.2.getD 1 0, reads := [(offset, 2)] }
  else
    { ok := false, val := 0, reads := [(offset, 2)] }

/-- `DataSourceHelper::getUInt24`: `*x = 0`; read 3 bytes; on a full read
`*x = (byte[0] << 16) | (byte[1] << 8) | byte[2]` and return true. -/
def DataSourceHelper.getUInt24 (h : DataSourceHelper) (offset : Int) : RdResult :=
  let r := h.readAt offset 3
  if r.1 = 3 then
    { ok := true,
      val := r.2.getD 0 0 <<< 16 ||| r.2.getD 1 0 <<< 8 ||| r.2.getD 2 0,
      reads := [(offset, 3)] }
  else
    { ok := false, val := 0, reads := [(offset, 3)] }

/-- `DataSourceHelper::getUInt32`: `*x = 0`; read 4 bytes into a `uint32_t`
`tmp` (a little-endian load of the buffer); on a full read `*x = ntohl(tmp)`
and return true. -/
def DataSourceHelper.getUInt32 (h : DataSourceHelper) (offset : Int) : RdResult :=
  let r := h.readAt offset 4
  if r.1 = 4 then
    { ok := true, val := ntohl (leLoad r.2), reads := [(offset, 4)] }
  else
    { ok := false, val := 0, reads := [(offset, 4)] }

/-- `DataSourceHelper::getUInt64`: `*x = 0`; read 8 bytes into a `uint64_t`
`tmp` (a little-endian load of the buffer); on a full read
`*x = ((uint64_t)ntohl(tmp & 0xffffffff) << 32) | ntohl(tmp >> 32)` and
return true. -/
def DataSourceHelper.getUInt64 (h : DataSourceHelper) (offset : Int) : RdResult :=
  let r := h.readAt offset 8
  if r.1 = 8 then
    { ok := true,
      val := ntohl (leLoad r.2 &&& 0xffffffff) <<< 32 ||| ntohl (leLoad r.2 >>> 32),
      reads := [(offset, 8)] }
  else
    { ok := false, val := 0, reads := [(offset, 8)] }

/-- `DataSourceHelper::getUInt16Var`: size 2 delegates to `getUInt16`;
size 1 reads one byte into a local and stores it on success; any other size
falls through to `return false` without touching `*x` or the source.
`x0` is the value `*x` held before the call. -/
def DataSourceHelper.getUInt16Var (h : DataSourceHelper) (offset : Int)
    (x0 : Nat) (size : Nat) : RdResult :=
  if size = 2 then h.getUInt16 offset
  else if size = 1 then
    let r := h.readAt offset 1
    if r.1 = 1 then { ok := true, val := r.2.getD 0 0, reads := [(offset, 1)] }
    else { ok := false, val := x0, reads := [(offset, 1)] }
  else { ok := false, val := x0, reads := [] }

/-- `DataSourceHelper::getUInt32Var`: size 4 delegates to `getUInt32`;
size 2 calls `getUInt16` into a local `tmp` and stores it on success; any
other size returns false without touching `*x` or the source. -/
def DataSourceHelper.getUInt32Var (h : DataSourceHelper) (offset : Int)
    (x0 : Nat) (size : Nat) : RdResult :=
  if size = 4 then h.getUInt32 offset
  else if size = 2 then
    let r := h.getUInt16 offset
    if r.ok then { ok := true, val := r.val, reads := r.reads }
    else { ok := false, val := x0, reads := r.reads }
  else { ok := false, val := x0, reads := [] }

/-- `DataSourceHelper::getUInt64Var`: size 8 delegates to `getUInt64`;
size 4 calls `getUInt32` into a local `tmp` and stores it on success; any
other size returns false without touching `*x` or the source. -/
def DataSourceHelper.getUInt64Var (h : DataSourceHelper) (offset : Int)
    (x0 : Nat) (size : Nat) : RdResult :=
  if size = 8 then h.getUInt64 offset
  else if size = 4 then
    let r := h.getUInt32 offset
    if r.ok then { ok := true, val := r.val, reads := r.reads }
    else { ok := false, val := x0, reads := r.reads }
  else { ok := false, val := x0, reads := [] }

/-- Well-formedness of one `readAt` response: the buffer has the requested
length and holds bytes (each `< 256`), as the C type `uint8_t*` guarantees. -/
def GoodRead (h : DataSourceHelper) (offset : Int) (n : Nat) : Prop :=
  (h.readAt offset n).2.length = n ∧ ∀ b ∈ (h.readAt offset n).2, b < 256

instance (h : DataSourceHelper) (offset : Int) (n : Nat) :
    Decidable (GoodRead h offset n) := by
  unfold GoodRead; exact inferInstance

/-- Big-endian interpretation of a byte buffer: most-significant byte
first. -/
def beVal (bytes : List Nat) : Nat :=
  bytes.foldl (fun acc b => acc * 256 + b) 0

/-- A sample in-memory source backed by 16 concrete bytes, used to witness
the reader theorems on concrete input. -/
def sampleBytes : List Nat :=
  [0x12, 0x34, 0x56, 0x78, 0x9a, 0xbc, 0xde, 0xf0,
   0x11, 0x22, 0x33, 0x44, 0x55, 0x66, 0x77, 0x88]

/-- A helper over the sample source: full reads inside the buffer, return 0
bytes past the end. -/
def sampleSource : DataSourceHelper :=
  ⟨{ readAt := fun off n =>
       if 0 ≤ off ∧ off.toNat + n ≤ sampleBytes.length then
         ((n : Int), (sampleBytes.drop off.toNat).take n)
       else (0, List.replicate n 0),
     getSize := fun _ => (0, 16),
     getUri := fun _ => (false, ""),
     flags := fun _ => 0 }⟩

/-- A source whose `readAt` always fails with -1, used for failure-path
counterexamples and witnesses. -/
def failSource : DataSourceHelper :=
  ⟨{ readAt := fun _ n => (-1, List.replicate n 0),
     getSize := fun _ => (-1, 0),
     getUri := fun _ => (false, ""),
     flags := fun _ => 0 }⟩

theorem or_shiftLeft_eq_add {a b n : Nat} (hb : b < 2 ^ n) :
    a <<< n ||| b = a * 2 ^ n + b := by
  rw [Nat.shiftLeft_eq, Nat.mul_comm, ← Nat.mul_add_lt_is_or hb, Nat.mul_comm]

theorem leLoad_two {b0 b1 : Nat} :
    leLoad [b0, b1] = b0 + 256 * b1 := by
  simp [leLoad]

theorem leLoad_four {b0 b1 b2 b3 : Nat} :
    leLoad [b0, b1, b2, b3] = b0 + 256 * (b1 + 256 * (b2 + 256 * b3)) := by
  simp [leLoad]

theorem length_eq_four {α : Type} {l : List α} (h : l.length = 4) :
    ∃ b0 b1 b2 b3, l = [b0, b1, b2, b3] := by
  rcases l with _ | ⟨b0, l⟩; · simp at h
  rcases l with _ | ⟨b1, l⟩; · simp at h
  rcases l with _ | ⟨b2, l⟩; · simp at h
  rcases l with _ | ⟨b3, l⟩; · simp at h
  rcases l with _ | ⟨b4, l⟩
  · exact ⟨b0, b1, b2, b3, rfl⟩
  · simp at h

theorem length_eq_eight {α : Type} {l : List α} (h : l.length = 8) :
    ∃ b0 b1 b2 b3 b4 b5 b6 b7, l = [b0, b1, b2, b3, b4, b5, b6, b7] := by
  rcases l with _ | ⟨b0, l⟩; · simp at h
  rcases l with _ | ⟨b1, l⟩; · simp at h
  rcases l with _ | ⟨b2, l⟩; · simp at h
  rcases l with _ | ⟨b3, l⟩; · simp at h
  rcases l with _ | ⟨b4, l⟩; · simp at h
  rcases l with _ | ⟨b5, l⟩; · simp at h
  rcases l with _ | ⟨b6, l⟩; · simp at h
  rcases l with _ | ⟨b7, l⟩; · simp at h
  rcases l with _ | ⟨b8, l⟩
  · exact ⟨b0, b1, b2, b3, b4, b5, b6, b7, rfl⟩
  · simp at h

theorem val_be_two {b0 b1 : Nat} (h1 : b1 < 256) :
    b0 <<< 8 ||| b1 = b0 * 256 + b1 := by
  rw [or_shiftLeft_eq_add (show b1 < 2 ^ 8 by omega)]
  norm_num

theorem val_be_three {b0 b1 b2 : Nat} (h1 : b1 < 256) (h2 : b2 < 256) :
    b0 <<< 16 ||| b1 <<< 8 ||| b2 = (b0 * 256 + b1) * 256 + b2 := by
  have A : b0 <<< 16 ||| b1 <<< 8 = b0 * 65536 + b1 * 256 := by
    rw [or_shiftLeft_eq_add (show b1 <<< 8 < 2 ^ 16 by rw [Nat.shiftLeft_eq]; omega),
      Nat.shiftLeft_eq]
    norm_num
  rw [A]
  have B : b0 * 65536 + b1 * 256 = 2 ^ 8 * (b0 * 256 + b1) := by ring
  rw [B, ← Nat.mul_add_lt_is_or (show b2 < 2 ^ 8 by omega)]
  ring

theorem ntohl_le_load {b0 b1 b2 b3 : Nat} (h0 : b0 < 256) (h1 : b1 < 256)
    (h2 : b2 < 256) (h3 : b3 < 256) :
    ntohl (b0 + 256 * (b1 + 256 * (b2 + 256 * b3))) =
      ((b0 * 256 + b1) * 256 + b2) * 256 + b3 := by
  have e1 : (b0 + 256 * (b1 + 256 * (b2 + 256 * b3))) % 256 = b0 := by omega
  have e2 : (b0 + 256 * (b1 + 256 * (b2 + 256 * b3))) / 256 % 256 = b1 := by omega
  have e3 : (b0 + 256 * (b1 + 256 * (b2 + 256 * b3))) / 65536 % 256 = b2 := by omega
  have e4 : (b0 + 256 * (b1 + 256 * (b2 + 256 * b3))) / 16777216 % 256 = b3 := by
    omega
  unfold ntohl
  rw [e1, e2, e3, e4]
  ring

theorem getUInt16_spec (h : DataSourceHelper) (off : Int) (g : GoodRead h off 2) :
    ((h.readAt off 2).1 = 2 →
      h.getUInt16 off = ⟨true, beVal (h.readAt off 2).2, [(off, 2)]⟩) ∧
    ((h.readAt off 2).1 < 2 →
      h.getUInt16 off = ⟨false, 0, [(off, 2)]⟩) := by
  obtain ⟨hlen, hbytes⟩ := g
  constructor
  · intro hr
    obtain ⟨b0, b1, hb⟩ := List.length_eq_two.mp hlen
    rw [hb] at hbytes
    have h0 : b0 < 256 := hbytes b0 (by simp)
    have h1 : b1 < 256 := hbytes b1 (by simp)
    simp only [DataSourceHelper.getUInt16, hr, if_pos]
    rw [hb]
    simp [beVal, val_be_two h1]
  · intro hr
    have hne : (h.readAt off 2).1 ≠ 2 := by omega
    simp only [DataSourceHelper.getUInt16, hne, if_false]

theorem getUInt24_spec (h : DataSourceHelper) (off : Int) (g : GoodRead h off 3) :
    ((h.readAt off 3).1 = 3 →
      h.getUInt24 off = ⟨true, beVal (h.readAt off 3).2, [(off, 3)]⟩) ∧
    ((h.readAt off 3).1 < 3 →
      h.getUInt24 off = ⟨false, 0, [(off, 3)]⟩) := by
  obtain ⟨hlen, hbytes⟩ := g
  constructor
  · intro hr
    obtain ⟨b0, b1, b2, hb⟩ := List.length_eq_three.mp hlen
    rw [hb] at hbytes
    have h1 : b1 < 256 := hbytes b1 (by simp)
    have h2 : b2 < 256 := hbytes b2 (by simp)
    simp only [DataSourceHelper.getUInt24, hr, if_pos]
    rw [hb]
    simp [beVal, val_be_three h1 h2]
  · intro hr
    have hne : (h.readAt off 3).1 ≠ 3 := by omega
    simp only [DataSourceHelper.getUInt24, hne, if_false]

theorem getUInt32_spec (h : DataSourceHelper) (off : Int) (g : GoodRead h off 4) :
    ((h.readAt off 4).1 = 4 →
      h.getUInt32 off = ⟨true, beVal (h.readAt off 4).2, [(off, 4)]⟩) ∧
    ((h.readAt off 4).1 < 4 →
      h.getUInt32 off = ⟨false, 0, [(off, 4)]⟩) := by
  obtain ⟨hlen, hbytes⟩ := g
  constructor
  · intro hr
    obtain ⟨b0, b1, b2, b3, hb⟩ := length_eq_four hlen
    rw [hb] at hbytes
    have h0 : b0 < 256 := hbytes b0 (by simp)
    have h1 : b1 < 256 := hbytes b1 (by simp)
    have h2 : b2 < 256 := hbytes b2 (by simp)
    have h3 : b3 < 256 := hbytes b3 (by simp)
    simp only [DataSourceHelper.getUInt32, hr, if_pos]
    rw [hb]
    simp [beVal, leLoad_four, ntohl_le_load h0 h1 h2 h3]
  · intro hr
    have hne : (h.readAt off 4).1 ≠ 4 := by omega
    simp only [DataSourceHelper.getUInt32, hne, if_false]

theorem getUInt64_val {b0 b1 b2 b3 b4 b5 b6 b7 : Nat}
    (h0 : b0 < 256) (h1 : b1 < 256) (h2 : b2 < 256) (h3 : b3 < 256)
    (h4 : b4 < 256) (h5 : b5 < 256) (h6 : b6 < 256) (h7 : b7 < 256) :
    ntohl (leLoad [b0, b1, b2, b3, b4, b5, b6, b7] &&& 0xffffffff) <<< 32 |||
        ntohl (leLoad [b0, b1, b2, b3, b4, b5, b6, b7] >>> 32) =
      beVal [b0, b1, b2, b3, b4, b5, b6, b7] := by
  have hll : leLoad [b0, b1, b2, b3, b4, b5, b6, b7] =
      b0 + 256 * (b1 + 256 * (b2 + 256 * (b3 + 256 * (b4 + 256 * (b5 + 256 *
        (b6 + 256 * b7)))))) := by
    simp [leLoad]
  have hand : leLoad [b0, b1, b2, b3, b4, b5, b6, b7] &&& 0xffffffff =
      leLoad [b0, b1, b2, b3, b4, b5, b6, b7] % 4294967296 := by
    have e := Nat.and_pow_two_sub_one_eq_mod (leLoad [b0, b1, b2, b3, b4, b5, b6, b7]) 32
    norm_num at e
    exact e
  have hshr : leLoad [b0, b1, b2, b3, b4, b5, b6, b7] >>> 32 =
      leLoad [b0, b1, b2, b3, b4, b5, b6, b7] / 4294967296 := by
    rw [Nat.shiftRight_eq_div_pow]
  have hmod : leLoad [b0, b1, b2, b3, b4, b5, b6, b7] % 4294967296 =
      b0 + 256 * (b1 + 256 * (b2 + 256 * b3)) := by
    rw [hll]; omega
  have hdiv : leLoad [b0, b1, b2, b3, b4, b5, b6, b7] / 4294967296 =
      b4 + 256 * (b5 + 256 * (b6 + 256 * b7)) := by
    rw [hll]; omega
  rw [hand, hshr, hmod, hdiv, ntohl_le_load h0 h1 h2 h3, ntohl_le_load h4 h5 h6 h7,
    or_shiftLeft_eq_add (show ((b4 * 256 + b5) * 256 + b6) * 256 + b7 < 2 ^ 32 by omega)]
  simp [beVal]
  ring

theorem getUInt64_spec (h : DataSourceHelper) (off : Int) (g : GoodRead h off 8) :
    ((h.readAt off 8).1 = 8 →
      h.getUInt64 off = ⟨true, beVal (h.readAt off 8).2, [(off, 8)]⟩) ∧
    ((h.readAt off 8).1 < 8 →
      h.getUInt64 off = ⟨false, 0, [(off, 8)]⟩) := by
  obtain ⟨hlen, hbytes⟩ := g
  constructor
  · intro hr
    obtain ⟨b0, b1, b2, b3, b4, b5, b6, b7, hb⟩ := length_eq_eight hlen
    rw [hb] at hbytes
    have h0 : b0 < 256 := hbytes b0 (by simp)
    have h1 : b1 < 256 := hbytes b1 (by simp)
    have h2 : b2 < 256 := hbytes b2 (by simp)
    have h3 : b3 < 256 := hbytes b3 (by simp)
    have h4 : b4 < 256 := hbytes b4 (by simp)
    have h5 : b5 < 256 := hbytes b5 (by simp)
    have h6 : b6 < 256 := hbytes b6 (by simp)
    have h7 : b7 < 256 := hbytes b7 (by simp)
    simp only [DataSourceHelper.getUInt64, hr, if_pos]
    rw [hb]
    rw [getUInt64_val h0 h1 h2 h3 h4 h5 h6 h7]
  · intro hr
    have hne : (h.readAt off 8).1 ≠ 8 := by omega
    simp only [DataSourceHelper.getUInt64, hne, if_false]

/-- C1: for each fixed-width reader getUInt16/24/32/64 and every offset, a
readAt response of exactly N/8 well-formed bytes makes the reader return true
with the big-endian interpretation of those bytes in the output, and a readAt
response of fewer than N/8 bytes makes it return false with the output
zeroed. -/
theorem getUIntN_bigEndian (h : DataSourceHelper) (off : Int)
    (g2 : GoodRead h off 2) (g3 : GoodRead h off 3)
    (g4 : GoodRead h off 4) (g8 : GoodRead h off 8) :
    (((h.readAt off 2).1 = 2 →
        h.getUInt16 off = ⟨true, beVal (h.readAt off 2).2, [(off, 2)]⟩) ∧
      ((h.readAt off 2).1 < 2 → h.getUInt16 off = ⟨false, 0, [(off, 2)]⟩)) ∧
    (((h.readAt off 3).1 = 3 →
        h.getUInt24 off = ⟨true, beVal (h.readAt off 3).2, [(off, 3)]⟩) ∧
      ((h.readAt off 3).1 < 3 → h.getUInt24 off = ⟨false, 0, [(off, 3)]⟩)) ∧
    (((h.readAt off 4).1 = 4 →
        h.getUInt32 off = ⟨true, beVal (h.readAt off 4).2, [(off, 4)]⟩) ∧
      ((h.readAt off 4).1 < 4 → h.getUInt32 off = ⟨false, 0, [(off, 4)]⟩)) ∧
    (((h.readAt off 8).1 = 8 →
        h.getUInt64 off = ⟨true, beVal (h.readAt off 8).2, [(off, 8)]⟩) ∧
      ((h.readAt off 8).1 < 8 → h.getUInt64 off = ⟨false, 0, [(off, 8)]⟩)) :=
  ⟨getUInt16_spec h off g2, getUInt24_spec h off g3,
   getUInt32_spec h off g4, getUInt64_spec h off g8⟩

/-- Witness for C1 at the concrete sample source: a successful 32-bit read and
a failing 64-bit read near the end of the buffer. -/
theorem getUIntN_bigEndian_witness :
    sampleSource.getUInt32 0 = ⟨true, beVal (sampleSource.readAt 0 4).2, [(0, 4)]⟩ ∧
    sampleSource.getUInt64 12 = ⟨false, 0, [(12, 8)]⟩ :=
  ⟨(getUIntN_bigEndian sampleSource 0 (by decide) (by decide) (by decide)
      (by decide)).2.2.1.1 (by decide),
   (getUIntN_bigEndian sampleSource 12 (by decide) (by decide) (by decide)
      (by decide)).2.2.2.2 (by decide)⟩

/-- Counterexample to C2: on the always-failing source, `getUInt16Var` with
size 1 returns false yet leaves the output parameter holding its previous
value 5, not 0 (the size-1 branch only writes `*x` on success and the final
`return false` does not touch it). -/
theorem getUInt16Var_fail_not_zeroed :
    (failSource.getUInt16Var 0 5 1).ok = false ∧
      (failSource.getUInt16Var 0 5 1).val = 5 := by decide

/-- C2 (amended): the fixed-width readers getUInt16/24/32/64 zero the output
whenever they return false, and a variable-width reader zeroes it on failure
exactly when the requested size is the full width of its output type (the
case it delegates to the fixed-width reader); for any other size a failing
variable-width reader leaves the output at the value it held before the
call. -/
theorem failure_output_values (h : DataSourceHelper) (off : Int) (x0 n : Nat) :
    ((h.getUInt16 off).ok = false → (h.getUInt16 off).val = 0) ∧
    ((h.getUInt24 off).ok = false → (h.getUInt24 off).val = 0) ∧
    ((h.getUInt32 off).ok = false → (h.getUInt32 off).val = 0) ∧
    ((h.getUInt64 off).ok = false → (h.getUInt64 off).val = 0) ∧
    ((h.getUInt16Var off x0 2).ok = false → (h.getUInt16Var off x0 2).val = 0) ∧
    ((h.getUInt32Var off x0 4).ok = false → (h.getUInt32Var off x0 4).val = 0) ∧
    ((h.getUInt64Var off x0 8).ok = false → (h.getUInt64Var off x0 8).val = 0) ∧
    (n ≠ 2 → (h.getUInt16Var off x0 n).ok = false →
      (h.getUInt16Var off x0 n).val = x0) ∧
    (n ≠ 4 → (h.getUInt32Var off x0 n).ok = false →
      (h.getUInt32Var off x0 n).val = x0) ∧
    (n ≠ 8 → (h.getUInt64Var off x0 n).ok = false →
      (h.getUInt64Var off x0 n).val = x0) := by
  refine ⟨?_, ?_, ?_, ?_, ?_, ?_, ?_, ?_, ?_, ?_⟩
  · by_cases hc : (h.readAt off 2).1 = 2 <;>
      simp [DataSourceHelper.getUInt16, hc]
  · by_cases hc : (h.readAt off 3).1 = 3 <;>
      simp [DataSourceHelper.getUInt24, hc]
  · by_cases hc : (h.readAt off 4).1 = 4 <;>
      simp [DataSourceHelper.getUInt32, hc]
  · by_cases hc : (h.readAt off 8).1 = 8 <;>
      simp [DataSourceHelper.getUInt64, hc]
  · by_cases hc : (h.readAt off 2).1 = 2 <;>
      simp [DataSourceHelper.getUInt16Var, DataSourceHelper.getUInt16, hc]
  · by_cases hc : (h.readAt off 4).1 = 4 <;>
      simp [DataSourceHelper.getUInt32Var, DataSourceHelper.getUInt32, hc]
  · by_cases hc : (h.readAt off 8).1 = 8 <;>
      simp [DataSourceHelper.getUInt64Var, DataSourceHelper.getUInt64, hc]
  · intro hn
    rcases eq_or_ne n 1 with h1 | h1
    · subst h1
      by_cases hc : (h.readAt off 1).1 = 1 <;>
        simp [DataSourceHelper.getUInt16Var, hc]
    · simp [DataSourceHelper.getUInt16Var, hn, h1]
  · intro hn
    rcases eq_or_ne n 2 with h2 | h2
    · subst h2
      by_cases hok : (h.getUInt16 off).ok <;>
        simp [DataSourceHelper.getUInt32Var, hok]
    · simp [DataSourceHelper.getUInt32Var, hn, h2]
  · intro hn
    rcases eq_or_ne n 4 with h4 | h4
    · subst h4
      by_cases hok : (h.getUInt32 off).ok <;>
        simp [DataSourceHelper.getUInt64Var, hok]
    · simp [DataSourceHelper.getUInt64Var, hn, h4]

/-- Witness for the amended C2 at concrete inputs: a failing full-width
`getUInt32Var` zeroes the output while a failing size-1 `getUInt16Var`
keeps the prior value. -/
theorem failure_output_values_witness :
    (failSource.getUInt32Var 0 7 4).val = 0 ∧
      (failSource.getUInt16Var 0 7 1).val = 7 :=
  ⟨(failure_output_values failSource 0 7 1).2.2.2.2.2.1 (by decide),
   (failure_output_values failSource 0 7 1).2.2.2.2.2.2.2.1 (by decide) (by decide)⟩

/-- C3: a variable-width reader given a size that is neither the half-width
nor the full-width of its output type returns false and issues no `readAt`
request at all. -/
theorem getUIntVar_bad_size_no_read (h : DataSourceHelper) (off : Int)
    (x0 n : Nat) :
    (n ≠ 1 → n ≠ 2 → (h.getUInt16Var off x0 n).ok = false ∧
      (h.getUInt16Var off x0 n).reads = []) ∧
    (n ≠ 2 → n ≠ 4 → (h.getUInt32Var off x0 n).ok = false ∧
      (h.getUInt32Var off x0 n).reads = []) ∧
    (n ≠ 4 → n ≠ 8 → (h.getUInt64Var off x0 n).ok = false ∧
      (h.getUInt64Var off x0 n).reads = []) := by
  refine ⟨fun h1 h2 => ?_, fun h2 h4 => ?_, fun h4 h8 => ?_⟩
  · unfold DataSourceHelper.getUInt16Var
    rw [if_neg h2, if_neg h1]
    simp
  · unfold DataSourceHelper.getUInt32Var
    rw [if_neg h4, if_neg h2]
    simp
  · unfold DataSourceHelper.getUInt64Var
    rw [if_neg h8, if_neg h4]
    simp

/-- Witness for C3 at concrete inputs: size 3 on each variable-width reader
of the sample source fails without reading. -/
theorem getUIntVar_bad_size_no_read_witness :
    ((sampleSource.getUInt16Var 0 9 3).ok = false ∧
      (sampleSource.getUInt16Var 0 9 3).reads = []) ∧
    ((sampleSource.getUInt32Var 0 9 3).ok = false ∧
      (sampleSource.getUInt32Var 0 9 3).reads = []) ∧
    ((sampleSource.getUInt64Var 0 9 3).ok = false ∧
      (sampleSource.getUInt64Var 0 9 3).reads = []) :=
  ⟨(getUIntVar_bad_size_no_read sampleSource 0 9 3).1 (by decide) (by decide),
   (getUIntVar_bad_size_no_read sampleSource 0 9 3).2.1 (by decide) (by decide),
   (getUIntVar_bad_size_no_read sampleSource 0 9 3).2.2 (by decide) (by decide)⟩

/-- C4: `getUInt32Var` with size 2 returns the same boolean as `getUInt16`
and on success stores the zero-extension of the 16-bit value; with size 4 it
is exactly `getUInt32`. -/
theorem getUInt32Var_refines (h : DataSourceHelper) (off : Int) (x0 : Nat) :
    ((h.getUInt32Var off x0 2).ok = (h.getUInt16 off).ok ∧
      ((h.getUInt32Var off x0 2).ok = true →
        (h.getUInt32Var off x0 2).val = (h.getUInt16 off).val)) ∧
    h.getUInt32Var off x0 4 = h.getUInt32 off := by
  refine ⟨?_, by rfl⟩
  unfold DataSourceHelper.getUInt32Var
  norm_num
  split <;> simp_all

/-- Witness for C4 at the concrete sample source. -/
theorem getUInt32Var_refines_witness :
    (sampleSource.getUInt32Var 0 9 2).val = (sampleSource.getUInt16 0).val ∧
      sampleSource.getUInt32Var 0 9 4 = sampleSource.getUInt32 0 :=
  ⟨(getUInt32Var_refines sampleSource 0 9).1.2 (by decide),
   (getUInt32Var_refines sampleSource 0 9).2⟩

/-- C5: the output of `getUInt24` always fits in the low 24 bits: bits 24-31
are zero whether the call succeeds or fails. -/
theorem getUInt24_high_bits_zero (h : DataSourceHelper) (off : Int)
    (g : GoodRead h off 3) : (h.getUInt24 off).val < 2 ^ 24 := by
  obtain ⟨hlen, hbytes⟩ := g
  by_cases hc : (h.readAt off 3).1 = 3
  · obtain ⟨b0, b1, b2, hb⟩ := List.length_eq_three.mp hlen
    rw [hb] at hbytes
    have h0 : b0 < 256 := hbytes b0 (by simp)
    have h1 : b1 < 256 := hbytes b1 (by simp)
    have h2 : b2 < 256 := hbytes b2 (by simp)
    simp only [DataSourceHelper.getUInt24, hc, if_pos]
    rw [hb]
    simp only [List.getD_cons_zero, List.getD_cons_succ]
    rw [val_be_three h1 h2]
    omega
  · simp [DataSourceHelper.getUInt24, hc]

/-- Witness for C5 at the concrete sample source. -/
theorem getUInt24_high_bits_zero_witness :
    (sampleSource.getUInt24 2 |>.val) < 2 ^ 24 :=
  getUInt24_high_bits_zero sampleSource 2 (by decide)

/-- `MediaExtractorPluginHelper::Flags`: CAN_SEEK_BACKWARD. -/
def CAN_SEEK_BACKWARD : Nat := 1

/-- `MediaExtractorPluginHelper::Flags`: CAN_SEEK_FORWARD. -/
def CAN_SEEK_FORWARD : Nat := 2

/-- `MediaExtractorPluginHelper::Flags`: CAN_PAUSE. -/
def CAN_PAUSE : Nat := 4

/-- `MediaExtractorPluginHelper::Flags`: CAN_SEEK. -/
def CAN_SEEK : Nat := 8

/-- Modelled from the spec: the `status_t` error code `INVALID_OPERATION`
from `utils/Errors.h` (an external header, not under `src/`); its concrete
value is `-2^31 + 2` in Android, but no theorem below depends on it. -/
def INVALID_OPERATION : Int := -2147483646

/-- Default of the virtual `flags()`:
`CAN_SEEK_BACKWARD | CAN_SEEK_FORWARD | CAN_SEEK | CAN_PAUSE`. -/
def defaultFlags : Nat :=
  CAN_SEEK_BACKWARD ||| CAN_SEEK_FORWARD ||| CAN_SEEK ||| CAN_PAUSE

/-- Default of the virtual `setMediaCas`: ignore both arguments and return
`INVALID_OPERATION`. -/
def defaultSetMediaCas : List Nat → Nat → Int := fun _ _ => INVALID_OPERATION

/-- Default of the virtual `name()`: the literal `"<unspecified>"`. -/
def defaultName : String := "<unspecified>"

/-- `MediaExtractorPluginHelper`: the abstract Implementation base class.
Virtual methods are modelled as function-valued fields (an override is a
different field value); `MediaTrack` pointers and `MetaDataBase` contents are
abstract type parameters; `status_t` is `Int`; a method taking a
`MetaDataBase&` returns the status together with the possibly-updated
metadata.  The three optional capabilities carry the base-class defaults. -/
structure MediaExtractorPluginHelper (MediaTrack MetaDataBase : Type) where
  countTracks : Nat
  getTrack : Nat → MediaTrack
  getTrackMetaData : MetaDataBase → Nat → Nat → Int × MetaDataBase
  getMetaData : MetaDataBase → Int × MetaDataBase
  flags : Nat := defaultFlags
  setMediaCas : List Nat → Nat → Int := defaultSetMediaCas
  name : String := defaultName

/-- Modelled from the spec: the Contract struct `CMediaExtractor` declared
in `media/MediaExtractorPluginApi.h` (not under `src/`): an opaque data
pointer plus nullable function-pointer slots `free, countTracks, getTrack,
getTrackMetaData, getMetaData, flags, setMediaCas, name`.  The erased
`void*` data pointer is modelled by the implementation value it points to,
and a null function pointer by `none`. -/
structure CMediaExtractor (MediaTrack MetaDataBase : Type) where
  data : MediaExtractorPluginHelper MediaTrack MetaDataBase
  free : Option (MediaExtractorPluginHelper MediaTrack MetaDataBase → Unit)
  countTracks : Option (MediaExtractorPluginHelper MediaTrack MetaDataBase → Nat)
  getTrack : Option (MediaExtractorPluginHelper MediaTrack MetaDataBase → Nat → MediaTrack)
  getTrackMetaData : Option (MediaExtractorPluginHelper MediaTrack MetaDataBase →
    MetaDataBase → Nat → Nat → Int × MetaDataBase)
  getMetaData : Option (MediaExtractorPluginHelper MediaTrack MetaDataBase →
    MetaDataBase → Int × MetaDataBase)
  flags : Option (MediaExtractorPluginHelper MediaTrack MetaDataBase → Nat)
  setMediaCas : Option (MediaExtractorPluginHelper MediaTrack MetaDataBase →
    List Nat → Nat → Int)
  name : Option (MediaExtractorPluginHelper MediaTrack MetaDataBase → String)

/-- The `free` trampoline: `delete (MediaExtractorPluginHelper*)data`.
Destruction has no observable value in a pure model. -/
def freeTrampoline {MT MD : Type} : MediaExtractorPluginHelper MT MD → Unit :=
  fun _ => ()

/-- The `countTracks` trampoline: recover the implementation from the erased
pointer and forward. -/
def countTracksTrampoline {MT MD : Type} : MediaExtractorPluginHelper MT MD → Nat :=
  fun data => data.countTracks

/-- The `getTrack` trampoline. -/
def getTrackTrampoline {MT MD : Type} :
    MediaExtractorPluginHelper MT MD → Nat → MT :=
  fun data index => data.getTrack index

/-- The `getTrackMetaData` trampoline. -/
def getTrackMetaDataTrampoline {MT MD : Type} :
    MediaExtractorPluginHelper MT MD → MD → Nat → Nat → Int × MD :=
  fun data meta index fl => data.getTrackMetaData meta index fl

/-- The `getMetaData` trampoline. -/
def getMetaDataTrampoline {MT MD : Type} :
    MediaExtractorPluginHelper MT MD → MD → Int × MD :=
  fun data meta => data.getMetaData meta

/-- The `flags` trampoline. -/
def flagsTrampoline {MT MD : Type} : MediaExtractorPluginHelper MT MD → Nat :=
  fun data => data.flags

/-- The `setMediaCas` trampoline. -/
def setMediaCasTrampoline {MT MD : Type} :
    MediaExtractorPluginHelper MT MD → List Nat → Nat → Int :=
  fun data casToken size => data.setMediaCas casToken size

/-- The `name` trampoline. -/
def nameTrampoline {MT MD : Type} : MediaExtractorPluginHelper MT MD → String :=
  fun data => data.name

/-- `wrap`: allocate a `CMediaExtractor`, store the erased implementation
pointer in `data`, and fill every slot with its trampoline. -/
def wrap {MT MD : Type} (extractor : MediaExtractorPluginHelper MT MD) :
    CMediaExtractor MT MD where
  data := extractor
  free := some freeTrampoline
  countTracks := some countTracksTrampoline
  getTrack := some getTrackTrampoline
  getTrackMetaData := some getTrackMetaDataTrampoline
  getMetaData := some getMetaDataTrampoline
  flags := some flagsTrampoline
  setMediaCas := some setMediaCasTrampoline
  name := some nameTrampoline

/-- C6: every capability slot filled by `wrap` holds exactly its trampoline,
and invoking that trampoline on the Contract's opaque data with any
arguments returns exactly what the corresponding Implementation method
returns on the same arguments, status codes included. -/
theorem wrap_forwards {MT MD : Type} (impl : MediaExtractorPluginHelper MT MD) :
    ((wrap impl).countTracks = some countTracksTrampoline ∧
      countTracksTrampoline (wrap impl).data = impl.countTracks) ∧
    ((wrap impl).getTrack = some getTrackTrampoline ∧
      ∀ index, getTrackTrampoline (wrap impl).data index = impl.getTrack index) ∧
    ((wrap impl).getTrackMetaData = some getTrackMetaDataTrampoline ∧
      ∀ meta index fl, getTrackMetaDataTrampoline (wrap impl).data meta index fl =
        impl.getTrackMetaData meta index fl) ∧
    ((wrap impl).getMetaData = some getMetaDataTrampoline ∧
      ∀ meta, getMetaDataTrampoline (wrap impl).data meta = impl.getMetaData meta) ∧
    ((wrap impl).flags = some flagsTrampoline ∧
      flagsTrampoline (wrap impl).data = impl.flags) ∧
    ((wrap impl).setMediaCas = some setMediaCasTrampoline ∧
      ∀ casToken size, setMediaCasTrampoline (wrap impl).data casToken size =
        impl.setMediaCas casToken size) ∧
    ((wrap impl).name = some nameTrampoline ∧
      nameTrampoline (wrap impl).data = impl.name) :=
  ⟨⟨rfl, rfl⟩, ⟨rfl, fun _ => rfl⟩, ⟨rfl, fun _ _ _ => rfl⟩, ⟨rfl, fun _ => rfl⟩,
   ⟨rfl, rfl⟩, ⟨rfl, fun _ _ => rfl⟩, ⟨rfl, rfl⟩⟩

/-- C7: after `wrap`, every function-pointer slot of the Contract is
non-null and the opaque data field holds the wrapped implementation. -/
theorem wrap_slots_nonnull {MT MD : Type}
    (impl : MediaExtractorPluginHelper MT MD) :
    (wrap impl).free.isSome = true ∧
    (wrap impl).countTracks.isSome = true ∧
    (wrap impl).getTrack.isSome = true ∧
    (wrap impl).getTrackMetaData.isSome = true ∧
    (wrap impl).getMetaData.isSome = true ∧
    (wrap impl).flags.isSome = true ∧
    (wrap impl).setMediaCas.isSome = true ∧
    (wrap impl).name.isSome = true ∧
    (wrap impl).data = impl :=
  ⟨rfl, rfl, rfl, rfl, rfl, rfl, rfl, rfl, rfl⟩

/-- A concrete implementation that overrides none of the optional
capabilities, used to witness the default-capability theorem. -/
def defaultImpl : MediaExtractorPluginHelper Unit Unit where
  countTracks := 0
  getTrack := fun _ => ()
  getTrackMetaData := fun meta _ _ => (0, meta)
  getMetaData := fun meta => (0, meta)

/-- C10: through a wrapped Contract, an implementation that keeps the
base-class defaults reports flags
`CAN_SEEK_BACKWARD | CAN_SEEK_FORWARD | CAN_SEEK | CAN_PAUSE` (the value 15),
answers `INVALID_OPERATION` to every `setMediaCas` call, and reports the
name `"<unspecified>"`. -/
theorem wrap_default_capabilities {MT MD : Type}
    (impl : MediaExtractorPluginHelper MT MD)
    (hf : impl.flags = defaultFlags)
    (hc : impl.setMediaCas = defaultSetMediaCas)
    (hn : impl.name = defaultName) :
    ((wrap impl).flags = some flagsTrampoline ∧
      flagsTrampoline (wrap impl).data = 15 ∧
      flagsTrampoline (wrap impl).data =
        (CAN_SEEK_BACKWARD ||| CAN_SEEK_FORWARD ||| CAN_SEEK ||| CAN_PAUSE)) ∧
    ((wrap impl).setMediaCas = some setMediaCasTrampoline ∧
      ∀ casToken size, setMediaCasTrampoline (wrap impl).data casToken size =
        INVALID_OPERATION) ∧
    ((wrap impl).name = some nameTrampoline ∧
      nameTrampoline (wrap impl).data = "<unspecified>") := by
  refine ⟨⟨rfl, ?_, ?_⟩, ⟨rfl, ?_⟩, ⟨rfl, ?_⟩⟩
  · show impl.flags = 15
    rw [hf]; rfl
  · show impl.flags = _
    rw [hf]; rfl
  · intro casToken size
    show impl.setMediaCas casToken size = INVALID_OPERATION
    rw [hc]; rfl
  · show impl.name = _
    rw [hn]; rfl

/-- Witness for C10 on the concrete `defaultImpl`. -/
theorem wrap_default_capabilities_witness :
    flagsTrampoline (wrap defaultImpl).data = 15 ∧
      setMediaCasTrampoline (wrap defaultImpl).data [1, 2] 2 = INVALID_OPERATION ∧
      nameTrampoline (wrap defaultImpl).data = "<unspecified>" :=
  ⟨(wrap_default_capabilities defaultImpl rfl rfl rfl).1.2.1,
   (wrap_default_capabilities defaultImpl rfl rfl rfl).2.1.2 [1, 2] 2,
   (wrap_default_capabilities defaultImpl rfl rfl rfl).2.2.2⟩

/-- `_digitAt_`: the hex value of character `s[n]`, or `none` where the C
template calls the never-defined `invalid_uuid_string` ("uuid: bad digits"),
which makes the constant expression fail to build. -/
def _digitAt_ (s : List Char) (n : Nat) : Option Nat :=
  if '0' ≤ s.getD n (Char.ofNat 0) ∧ s.getD n (Char.ofNat 0) ≤ '9' then
    some ((s.getD n (Char.ofNat 0)).toNat - '0'.toNat)
  else if 'a' ≤ s.getD n (Char.ofNat 0) ∧ s.getD n (Char.ofNat 0) ≤ 'f' then
    some ((s.getD n (Char.ofNat 0)).toNat - 'a'.toNat + 10)
  else if 'A' ≤ s.getD n (Char.ofNat 0) ∧ s.getD n (Char.ofNat 0) ≤ 'F' then
    some ((s.getD n (Char.ofNat 0)).toNat - 'A'.toNat + 10)
  else none

/-- `_hexByteAt_`: `(_digitAt_(s, n) << 4) + _digitAt_(s, n + 1)`, failing if
either digit fails. -/
def _hexByteAt_ (s : List Char) (n : Nat) : Option Nat := do
  let hi ← _digitAt_ s n
  let lo ← _digitAt_ s (n + 1)
  pure (hi <<< 4 + lo)

/-- `_assertIsDash_`: `c == '-'` succeeds, anything else is the build
failure `invalid_uuid_string("Wrong format")`. -/
def _assertIsDash_ (c : Char) : Option Bool :=
  if c = '-' then some true else none

/-- The sixteen offsets at which `constUUID` reads a two-digit hex byte. -/
def uuidDigitPositions : List Nat :=
  [0, 2, 4, 6, 9, 11, 14, 16, 19, 21, 24, 26, 28, 30, 32, 34]

/-- The sixteen `_hexByteAt_` calls of the `media_uuid_t` aggregate, in
order; `none` if any of them fails. -/
def hexBytesAt (s : List Char) : List Nat → Option (List Nat)
  | [] => some []
  | n :: ns => do
      let b ← _hexByteAt_ s n
      let rest ← hexBytesAt s ns
      pure (b :: rest)

/-- `constUUID`: the argument is a string literal of declared size `N`
(character count plus one for the terminator), checked by
`static_assert(N == 37)`; then the four dash positions are asserted and the
sixteen bytes are decoded.  The result is the 16-byte `media_uuid_t` value,
`none` standing for any of the compile-time failures. -/
def constUUID (s : String) : Option (List Nat) :=
  if s.data.length + 1 = 37 then do
    let _ ← _assertIsDash_ (s.data.getD 8 (Char.ofNat 0))
    let _ ← _assertIsDash_ (s.data.getD 13 (Char.ofNat 0))
    let _ ← _assertIsDash_ (s.data.getD 18 (Char.ofNat 0))
    let _ ← _assertIsDash_ (s.data.getD 23 (Char.ofNat 0))
    hexBytesAt s.data uuidDigitPositions
  else none

/-- C8: `constUUID` on the documented example literal yields exactly the
sixteen bytes the header's comment promises. -/
theorem constUUID_example :
    constUUID "7d613858-5837-4a38-84c5-332d1cddee27" =
      some [0x7d, 0x61, 0x38, 0x58, 0x58, 0x37, 0x4a, 0x38,
            0x84, 0xc5, 0x33, 0x2d, 0x1c, 0xdd, 0xee, 0x27] := by
  decide

/-- A hex digit in the codec's character classes: '0'-'9', 'a'-'f',
'A'-'F'. -/
def isHexDigit (c : Char) : Prop :=
  ('0' ≤ c ∧ c ≤ '9') ∨ ('a' ≤ c ∧ c ≤ 'f') ∨ ('A' ≤ c ∧ c ≤ 'F')

instance (c : Char) : Decidable (isHexDigit c) := by
  unfold isHexDigit; infer_instance

/-- Modelled from the spec (the validity side of C9, stated in the spec's
words): the stored literal has length exactly 37 with the terminator, the
characters at indices 8, 13, 18, 23 are exactly dashes, and every character
consumed as a hex digit (every other index below 36) is a valid hex
digit. -/
def validUUIDStr (s : String) : Prop :=
  s.data.length + 1 = 37 ∧
  s.data.getD 8 (Char.ofNat 0) = '-' ∧
  s.data.getD 13 (Char.ofNat 0) = '-' ∧
  s.data.getD 18 (Char.ofNat 0) = '-' ∧
  s.data.getD 23 (Char.ofNat 0) = '-' ∧
  ∀ i, i < 36 → i ≠ 8 → i ≠ 13 → i ≠ 18 → i ≠ 23 →
    isHexDigit (s.data.getD i (Char.ofNat 0))

set_option synthInstance.maxSize 1024 in
instance (s : String) : Decidable (validUUIDStr s) := by
  unfold validUUIDStr; infer_instance

theorem digitAt_isSome (s : List Char) (n : Nat) :
    (_digitAt_ s n).isSome = true ↔ isHexDigit (s.getD n (Char.ofNat 0)) := by
  unfold _digitAt_ isHexDigit
  split_ifs with h1 h2 h3 <;> simp_all

theorem hexByteAt_isSome (s : List Char) (n : Nat) :
    (_hexByteAt_ s n).isSome = true ↔
      isHexDigit (s.getD n (Char.ofNat 0)) ∧
        isHexDigit (s.getD (n + 1) (Char.ofNat 0)) := by
  rw [← digitAt_isSome s n, ← digitAt_isSome s (n + 1)]
  unfold _hexByteAt_
  rcases _digitAt_ s n with _ | d1 <;> rcases _digitAt_ s (n + 1) with _ | d2 <;>
    simp [Option.bind]

theorem hexBytesAt_isSome (s : List Char) (l : List Nat) :
    (hexBytesAt s l).isSome = true ↔ ∀ n ∈ l, (_hexByteAt_ s n).isSome = true := by
  induction l with
  | nil => simp [hexBytesAt]
  | cons a as ih =>
    unfold hexBytesAt
    rcases ha : _hexByteAt_ s a with _ | b
    · simp [ha, Option.bind]
    · rcases hr : hexBytesAt s as with _ | rest <;> simp_all [Option.bind]

theorem uuid_positions_bridge (cs : List Char) :
    (∀ n ∈ uuidDigitPositions, isHexDigit (cs.getD n (Char.ofNat 0)) ∧
        isHexDigit (cs.getD (n + 1) (Char.ofNat 0))) ↔
      ∀ i, i < 36 → i ≠ 8 → i ≠ 13 → i ≠ 18 → i ≠ 23 →
        isHexDigit (cs.getD i (Char.ofNat 0)) := by
  constructor
  · intro h i hi h8 h13 h18 h23
    simp [uuidDigitPositions] at h
    obtain ⟨⟨a0, a1⟩, ⟨a2, a3⟩, ⟨a4, a5⟩, ⟨a6, a7⟩, ⟨a9, a10⟩, ⟨a11, a12⟩,
      ⟨a14, a15⟩, ⟨a16, a17⟩, ⟨a19, a20⟩, ⟨a21, a22⟩, ⟨a24, a25⟩, ⟨a26, a27⟩,
      ⟨a28, a29⟩, ⟨a30, a31⟩, ⟨a32, a33⟩, ⟨a34, a35⟩⟩ := h
    rw [List.getD_eq_getElem?_getD]
    interval_cases i <;> first
      | omega
      | assumption
  · intro h n hn
    fin_cases hn <;>
      exact ⟨h _ (by norm_num) (by norm_num) (by norm_num) (by norm_num)
          (by norm_num),
        h _ (by norm_num) (by norm_num) (by norm_num) (by norm_num)
          (by norm_num)⟩

/-- C9: `constUUID` accepts a literal (produces a value rather than a
build failure) exactly when the literal is valid: stored length 37 with the
terminator, dashes exactly at indices 8, 13, 18, 23, and a hex digit at
every consumed position. -/
theorem assertIsDash_eq_none {c : Char} (h : c ≠ '-') : _assertIsDash_ c = none := by
  unfold _assertIsDash_; rw [if_neg h]

theorem assertIsDash_eq_some {c : Char} (h : c = '-') :
    _assertIsDash_ c = some true := by
  unfold _assertIsDash_; rw [if_pos h]

theorem constUUID_accepts_iff_valid (s : String) :
    (constUUID s).isSome = true ↔ validUUIDStr s := by
  unfold constUUID
  by_cases hlen : s.data.length + 1 = 37
  case neg =>
    rw [if_neg hlen]
    constructor
    · intro habs
      simp at habs
    · intro hv
      exact absurd hv.1 hlen
  case pos =>
    rw [if_pos hlen]
    by_cases h8 : s.data.getD 8 (Char.ofNat 0) = '-'
    case neg =>
      constructor
      · intro habs
        rw [assertIsDash_eq_none h8] at habs
        simp at habs
      · intro hv
        exact absurd hv.2.1 h8
    case pos =>
    by_cases h13 : s.data.getD 13 (Char.ofNat 0) = '-'
    case neg =>
      constructor
      · intro habs
        rw [assertIsDash_eq_some h8, assertIsDash_eq_none h13] at habs
        simp at habs
      · intro hv
        exact absurd hv.2.2.1 h13
    case pos =>
    by_cases h18 : s.data.getD 18 (Char.ofNat 0) = '-'
    case neg =>
      constructor
      · intro habs
        rw [assertIsDash_eq_some h8, assertIsDash_eq_some h13,
          assertIsDash_eq_none h18] at habs
        simp at habs
      · intro hv
        exact absurd hv.2.2.2.1 h18
    case pos =>
    by_cases h23 : s.data.getD 23 (Char.ofNat 0) = '-'
    case neg =>
      constructor
      · intro habs
        rw [assertIsDash_eq_some h8, assertIsDash_eq_some h13,
          assertIsDash_eq_some h18, assertIsDash_eq_none h23] at habs
        simp at habs
      · intro hv
        exact absurd hv.2.2.2.2.1 h23
    case pos =>
      constructor
      · intro hall
        rw [assertIsDash_eq_some h8, assertIsDash_eq_some h13,
          assertIsDash_eq_some h18, assertIsDash_eq_some h23] at hall
        replace hall : (hexBytesAt s.data uuidDigitPositions).isSome = true := hall
        rw [hexBytesAt_isSome] at hall
        refine ⟨hlen, h8, h13, h18, h23, ?_⟩
        rw [← uuid_positions_bridge]
        intro n hn
        rw [← hexByteAt_isSome]
        exact hall n hn
      · intro hv
        rw [assertIsDash_eq_some h8, assertIsDash_eq_some h13,
          assertIsDash_eq_some h18, assertIsDash_eq_some h23]
        show (hexBytesAt s.data uuidDigitPositions).isSome = true
        rw [hexBytesAt_isSome]
        intro n hn
        rw [hexByteAt_isSome]
        exact (uuid_positions_bridge s.data).mpr hv.2.2.2.2.2 n hn

/-- Witness for C9 at the documented example literal: the codec accepts it
and the validity predicate holds of it. -/
theorem constUUID_accepts_iff_valid_witness :
    validUUIDStr "7d613858-5837-4a38-84c5-332d1cddee27" :=
  (constUUID_accepts_iff_valid "7d613858-5837-4a38-84c5-332d1cddee27").mp
    (by decide)
